import Mathlib

/-!
Verification of the mezquit MQTT 3.1.1 publisher client.

This file is a shallow embedding of the core of the repository
(the wire codec in `internal/mqtt/encoding.go` and the generic message in
`generic_message.go`, the CONNECT request builder in
`internal/mqtt/connect_request.go`, the in-flight tracker in `in_flight.go`
and the Session acknowledgement handlers and state machine in
`internal/mqtt/session.go`), together with theorems settling the frozen
claims about it.

Conventions of the embedding:
- Go `byte` values are `Nat` with an explicit `% 256` wherever Go's byte
  arithmetic truncates (shifts, conversions).
- Byte streams written to an `io.Writer` or a `bytes.Buffer` are `List Nat`.
- Go `panic` is `Option.none` (resp. a missing case), Go `error` returns are
  `Except`.
- The in-flight bitmap, stored in Go as an array of 1024 `uint64` words where
  bit `n` lives at word `n / 64`, bit `n % 64`, is modelled extensionally as
  the function `Nat → Bool` it represents; `setBit`/`unsetBit`/`getBit`
  perform the corresponding pointwise updates and lookup.
- The doubly-linked `waitingPacketList` with its `waitingIdx` map of node
  pointers is modelled with an allocation counter: each `registerWaiting`
  allocates a fresh node token, `waitingList` is the token order of the
  linked list, `heap` gives each allocated node's (packetID, msg) contents,
  and `waitingIdx` maps a packet id to a node token exactly as the Go map
  holds node pointers (so it can go stale, as in the source).
- The unbounded `for` loop in `nextPacketID` is modelled with explicit fuel;
  `none` means the loop is still running after that many iterations.
-/

namespace Mezquit

/-! ## Constants (`constants.go`) -/

/-- `Reserved = 0` -/
def Reserved : Nat := 0

/-- `ConnectType = 1` -/
def ConnectType : Nat := 1

/-- `ConnAckType = 2` -/
def ConnAckType : Nat := 2

/-- `PublishType = 3` -/
def PublishType : Nat := 3

/-- Modelled from the spec: the constants file shipping the PUBACK family of
control types is not among the sources; the spec fixes PUBACK=4. -/
def PublishAckType : Nat := 4

/-- Modelled from the spec: PUBREC=5 (see `PublishAckType`). -/
def PublishReceivedType : Nat := 5

/-- Modelled from the spec: PUBREL=6 (see `PublishAckType`). -/
def PublishReleaseType : Nat := 6

/-- Modelled from the spec: PUBCOMP=7 (see `PublishAckType`). -/
def PublishCompleteType : Nat := 7

/-- Modelled from the spec: DISCONNECT=14 (see `PublishAckType`). -/
def DisconnectType : Nat := 14

/-- Modelled from the spec: for PUBREL the reserved flag nibble is `0010`. -/
def PublishReleaseReserved : Nat := 2

/-- `UserNameFlag = 1 << 7` -/
def UserNameFlag : Nat := 1 <<< 7

/-- `PasswordFlag = 1 << 6` -/
def PasswordFlag : Nat := 1 <<< 6

/-- `WillRetainFlag = 1 << 5` -/
def WillRetainFlag : Nat := 1 <<< 5

/-- `WillQoSOne = 1 << 3` -/
def WillQoSOne : Nat := 1 <<< 3

/-- `WillQoSTwo = 2 << 3` -/
def WillQoSTwo : Nat := 2 <<< 3

/-- `WillFlag = 1 << 2` -/
def WillFlag : Nat := 1 <<< 2

/-- `CleanSessionFlag = 1 << 1` -/
def CleanSessionFlag : Nat := 1 <<< 1

/-- `ConnectionAccepted = 0` -/
def ConnectionAccepted : Nat := 0

/-- `QoSOne = 1 << 1` -/
def QoSOne : Nat := 1 <<< 1

/-- `QoSTwo = 2 << 1` -/
def QoSTwo : Nat := 2 <<< 1

/-- `DupBit = 1 << 3` -/
def DupBit : Nat := 1 <<< 3

/-- `RetainBit = 1` -/
def RetainBit : Nat := 1

/-! ## Wire codec (`internal/mqtt/encoding.go`) -/

/-- `EncodeVariableInt` from `encoding.go`: little-endian base-128 digits,
the top bit of a byte set iff more bytes follow; always at least one byte. -/
def EncodeVariableInt (value : Nat) : List Nat :=
  let encodedByte := value % 128
  let rest := value / 128
  if h : rest > 0 then (encodedByte ||| 128) :: EncodeVariableInt rest
  else [encodedByte]
termination_by value
decreasing_by
  exact Nat.div_lt_self (Nat.pos_of_ne_zero (by omega)) (by omega)

/-- The loop body of `DecodeVariableInt` from `encoding.go`. On a `Read` that
returns no data Go leaves the 1-byte buffer zeroed, so an exhausted input
behaves as a `0x00` byte (terminating the loop). The multiplier check happens
after `multiplier *= 128`, exactly as in the source. -/
def DecodeVariableIntAux : List Nat → Nat → Nat → Except String Nat
  | [], multiplier, value =>
    if multiplier * 128 > 128 * 128 * 128 then Except.error "Malformed variable length"
    else Except.ok value
  | encodedByte :: rest, multiplier, value =>
    let value := value + (encodedByte &&& 127) * multiplier
    if multiplier * 128 > 128 * 128 * 128 then Except.error "Malformed variable length"
    else if encodedByte &&& 128 = 0 then Except.ok value
    else DecodeVariableIntAux rest (multiplier * 128) value

/-- `DecodeVariableInt` from `encoding.go`, reading from a byte stream. -/
def DecodeVariableInt (input : List Nat) : Except String Nat :=
  DecodeVariableIntAux input 1 0

/-- `EncodeStringTo` from `encoding.go`: 16-bit big-endian length then the
content bytes (Go's `byte(..)` conversions truncate mod 256). -/
def EncodeStringTo (value : List Nat) : List Nat :=
  (value.length >>> 8) % 256 :: value.length % 256 :: value

/-- `EncodeBytesTo` from `encoding.go`: same framing as `EncodeStringTo`. -/
def EncodeBytesTo (value : List Nat) : List Nat :=
  (value.length >>> 8) % 256 :: value.length % 256 :: value

/-- `Encode16BitIntTo` from `encoding.go`: big-endian 16-bit value. -/
def Encode16BitIntTo (value : Nat) : List Nat :=
  [(value >>> 8) % 256, value % 256]

/-! ## GenericMessage (`generic_message.go`) -/

/-- `GenericMessage`: fixed-header byte plus body bytes. -/
structure GenericMessage where
  fixedHeader : Nat
  body : List Nat
deriving DecidableEq, Repr

/-- `GenericMessage.WriteTo`: fixed header byte, variable-int encoded body
length, then the body (written only when non-empty, which is the same byte
sequence). -/
def GenericMessage.WriteTo (m : GenericMessage) : List Nat :=
  let bodyLength := m.body.length
  m.fixedHeader :: EncodeVariableInt bodyLength ++ (if bodyLength > 0 then m.body else [])

/-- `GenericMessage.WriteDupTo`: the source guards the DUP rewrite with
`m.fixedHeader<<4 == PublishType`, a Go byte shift that truncates mod 256. -/
def GenericMessage.WriteDupTo (m : GenericMessage) : List Nat :=
  let m2 := if (m.fixedHeader <<< 4) % 256 = PublishType then
    { m with fixedHeader := m.fixedHeader ||| DupBit } else m
  m2.WriteTo

/-- `NewDisconnectMessage` from `disconnect_message.go`. -/
def NewDisconnectMessage : GenericMessage :=
  { fixedHeader := DisconnectType <<< 4, body := [] }

/-! ## ConnectRequest (`internal/mqtt/connect_request.go`) -/

/-- `ConnectOptions`. Strings and byte slices are byte lists; the Go `*[]byte`
password pointer (nil = absent) is an `Option`. -/
structure ConnectOptions where
  Level : Nat
  CleanSession : Bool
  KeepAliveSeconds : Nat
  ClientName : List Nat
  WillTopic : List Nat
  WillMessage : List Nat
  WillQoS : Nat
  WillRetain : Bool
  UserName : List Nat
  Password : Option (List Nat)
deriving DecidableEq, Repr

/-- `DefaultConnectOptions`: MQTT 3.1.1, clean session, 10 s keep-alive,
empty client name. -/
def DefaultConnectOptions : ConnectOptions :=
  { Level := 4, CleanSession := true, KeepAliveSeconds := 10, ClientName := [],
    WillTopic := [], WillMessage := [], WillQoS := 0, WillRetain := false,
    UserName := [], Password := none }

/-- `ConnectRequest`. -/
structure ConnectRequest where
  options : ConnectOptions
deriving DecidableEq, Repr

/-- `ConnectRequest.remainingLength` from `connect_request.go`: sums the
lengths of the payload fields the source considers present (note that the
client name contributes only when non-empty), plus 2 bytes of length prefix
per counted item. -/
def ConnectRequest.remainingLength (r : ConnectRequest) : Nat :=
  let result := 0
  let count := 0
  let (result, count) :=
    if r.options.ClientName ≠ [] then (result + r.options.ClientName.length, count + 1)
    else (result, count)
  let (result, count) :=
    if r.options.WillTopic ≠ [] then
      (result + r.options.WillTopic.length + r.options.WillMessage.length, count + 2)
    else (result, count)
  let (result, count) :=
    if r.options.UserName ≠ [] then (result + r.options.UserName.length, count + 1)
    else (result, count)
  let (result, count) :=
    match r.options.Password with
    | some p => (result + p.length, count + 1)
    | none => (result, count)
  result + count * 2

/-- `ConnectRequest.connectBits` from `connect_request.go`. -/
def ConnectRequest.connectBits (r : ConnectRequest) : Nat :=
  let connectBits := 0
  let connectBits := if r.options.CleanSession then connectBits ||| CleanSessionFlag else connectBits
  let connectBits := if r.options.WillTopic ≠ [] then connectBits ||| WillFlag else connectBits
  let connectBits :=
    if r.options.WillQoS ≠ 0 then
      match r.options.WillQoS with
      | 1 => connectBits ||| WillQoSOne
      | 2 => connectBits ||| WillQoSTwo
      | _ => connectBits
    else connectBits
  let connectBits := if r.options.WillRetain then connectBits ||| WillRetainFlag else connectBits
  let connectBits := if r.options.UserName ≠ [] then connectBits ||| UserNameFlag else connectBits
  let connectBits :=
    match r.options.Password with
    | some _ => connectBits ||| PasswordFlag
    | none => connectBits
  connectBits

/-- The bytes `ConnectRequest.WriteTo` emits after the remaining-length field:
the 10-byte variable header followed by the payload (client id always written,
then will topic/message, username and password as flagged). "MQTT" is the
byte sequence 77, 81, 84, 84. -/
def ConnectRequest.variableHeaderAndPayload (r : ConnectRequest) : List Nat :=
  let connectBits := r.connectBits
  let keepAlive := r.options.KeepAliveSeconds
  [0, 4, 77, 81, 84, 84, r.options.Level, connectBits,
    (keepAlive >>> 8) % 256, keepAlive % 256]
  ++ EncodeStringTo r.options.ClientName
  ++ (if connectBits &&& WillFlag ≠ 0 then
        EncodeStringTo r.options.WillTopic ++ EncodeBytesTo r.options.WillMessage
      else [])
  ++ (if connectBits &&& UserNameFlag ≠ 0 then EncodeStringTo r.options.UserName else [])
  ++ (if connectBits &&& PasswordFlag ≠ 0 then
        EncodeBytesTo (r.options.Password.getD []) else [])

/-- `ConnectRequest.WriteTo` from `connect_request.go`: fixed header byte,
variable-int remaining length `10 + remainingLength`, then variable header
and payload. -/
def ConnectRequest.WriteTo (r : ConnectRequest) : List Nat :=
  (ConnectType <<< 4 ||| Reserved) :: EncodeVariableInt (10 + r.remainingLength)
  ++ r.variableHeaderAndPayload

/-! ## In-flight tracker (`in_flight.go`) -/

/-- `cappedIncrement` from `in_flight.go`: increment, then wrap to 1 when the
result exceeds 0xFFFF (0 is the reserved sentinel). -/
def cappedIncrement (x : Nat) : Nat :=
  if x + 1 > 0xFFFF then 1 else x + 1

/-- The `inFlight` tracker state. `bits` is the packet-id bitmap (stored in Go
as 1024 uint64 words); the linked `waitingList`/`waitingIdx` pair is modelled
with node tokens: `waitingList` is the list order of node tokens, `heap`
gives each allocated node's (packetID, msg) contents, `waitingIdx` maps a
packet id to the node token the Go map points at, and `freshNode` is the
allocation counter. -/
structure inFlight where
  bits : Nat → Bool
  nextValue : Nat
  waitingList : List Nat
  heap : Nat → Option (Nat × GenericMessage)
  waitingIdx : Nat → Option Nat
  freshNode : Nat

/-- `newInFlight`: zero bitmap, cursor 0, empty list and index. -/
def newInFlight : inFlight :=
  { bits := fun _ => false, nextValue := 0, waitingList := [],
    heap := fun _ => none, waitingIdx := fun _ => none, freshNode := 0 }

/-- `inFlight.setBit`. -/
def inFlight.setBit (f : inFlight) (n : Nat) : inFlight :=
  { f with bits := fun i => if i = n then true else f.bits i }

/-- `inFlight.unsetBit`. -/
def inFlight.unsetBit (f : inFlight) (n : Nat) : inFlight :=
  { f with bits := fun i => if i = n then false else f.bits i }

/-- `inFlight.getBit`. -/
def inFlight.getBit (f : inFlight) (n : Nat) : Bool :=
  f.bits n

/-- `inFlight.clearAllBits`. -/
def inFlight.clearAllBits (f : inFlight) : inFlight :=
  { f with bits := fun _ => false }

/-- The scanning `for` loop of `nextPacketID`: advance `result` with
`cappedIncrement` while its bit is set and it has not come back to
`dragonsTail`; `none` means the loop is still running after `fuel`
iterations (the Go loop is unbounded). -/
def nextPacketIDScan (bits : Nat → Bool) (dragonsTail : Nat) : Nat → Nat → Option Nat
  | _, 0 => none
  | result, fuel + 1 =>
    if bits result = true ∧ result ≠ dragonsTail then
      nextPacketIDScan bits dragonsTail (cappedIncrement result) fuel
    else some result

/-- `inFlight.nextPacketID` from `in_flight.go`: scan forward from the cursor,
fail hard ("No free packet IDs") when the scan comes back to the cursor,
otherwise advance the cursor to the found id, mark it in flight and return
it. The outer `Option` is the loop fuel (`none` = still looping). -/
def inFlight.nextPacketID (f : inFlight) (fuel : Nat) :
    Option (Except String (Nat × inFlight)) :=
  (nextPacketIDScan f.bits f.nextValue (cappedIncrement f.nextValue) fuel).map
    (fun result =>
      if result = f.nextValue then Except.error "No free packet IDs"
      else Except.ok (result,
        { f with nextValue := result,
                 bits := fun i => if i = result then true else f.bits i }))

/-- Successful outcome of `nextPacketID` (the fail-hard case mapped away). -/
def inFlight.nextPacketIDRun (f : inFlight) (fuel : Nat) : Option (Nat × inFlight) :=
  (f.nextPacketID fuel).bind (fun r =>
    match r with
    | Except.ok p => some p
    | Except.error _ => none)

/-- The ids of `n` successive successful `nextPacketID` calls. -/
def inFlight.nextIDs (f : inFlight) (fuel : Nat) : Nat → List Nat
  | 0 => []
  | n + 1 =>
    match f.nextPacketIDRun fuel with
    | some (id, f') => id :: f'.nextIDs fuel n
    | none => []

/-- `inFlight.registerWaiting`: set the bit (idempotent reinforcement),
push a freshly allocated node to the back of the list and record it in the
index. -/
def inFlight.registerWaiting (f : inFlight) (packetID : Nat) (msg : GenericMessage) :
    inFlight :=
  let f := f.setBit packetID
  let t := f.freshNode
  { f with waitingList := f.waitingList ++ [t],
           heap := fun t' => if t' = t then some (packetID, msg) else f.heap t',
           waitingIdx := fun p => if p = packetID then some t else f.waitingIdx p,
           freshNode := t + 1 }

/-- `inFlight.releaseWaiting`: fails hard when the bit is not set; otherwise
unlinks the node the index points at (a nil index entry is also a hard
failure: `Remove(nil)` dereferences nil). The index entry itself is not
deleted. The unlink is modelled for nodes currently on the list. -/
def inFlight.releaseWaiting (f : inFlight) (packetID : Nat) : Option inFlight :=
  if f.getBit packetID = false then none
  else match f.waitingIdx packetID with
    | none => none
    | some t => some { f with waitingList := f.waitingList.erase t }

/-- `inFlight.replaceWaiting`: fails hard when the bit is not set; otherwise
overwrites the message stored in the node the index points at (nil index
entry: hard failure, nil dereference on the msg store). -/
def inFlight.replaceWaiting (f : inFlight) (packetID : Nat) (msg : GenericMessage) :
    Option inFlight :=
  if f.getBit packetID = false then none
  else match f.waitingIdx packetID with
    | none => none
    | some t => some { f with
        heap := fun t' => if t' = t then (f.heap t).map (fun pm => (pm.1, msg))
                          else f.heap t' }

/-- `inFlight.eachWaitingPacket`: the (packetID, msg) pairs yielded by the
head-to-tail iteration over the waiting list. -/
def inFlight.eachWaitingPacket (f : inFlight) : List (Nat × GenericMessage) :=
  f.waitingList.filterMap f.heap

/-! ## Session (`internal/mqtt/session.go`) -/

/-- Session state constants (Go `iota`). -/
def INITIAL : Nat := 0

/-- See `INITIAL`. -/
def CONNECTED : Nat := 1

/-- See `INITIAL`. -/
def DISCONNECTING : Nat := 2

/-- See `INITIAL`. -/
def DISCONNECTED : Nat := 3

/-- The Session fields the claims are about: the state machine, whether the
reader/dispatcher/writer goroutines have been launched, the two diagnostic
ignore flags and the in-flight tracker. -/
structure Session where
  state : Nat
  tasksStarted : Bool
  XIgnorePubAck : Bool
  XIgnorePubComp : Bool
  flight : inFlight

/-- Errors `Connect` can surface (the transport-level read errors and the
timeout race are outside this embedding). -/
inductive ConnectError
  | badState
  | notConnAck (got : Nat)
  | badLength (got : Nat)
  | refused (code : Nat)
deriving DecidableEq, Repr

/-- The CONNACK validation in `Connect`'s worker goroutine: the checks run in
source order and the first failing check's error is what the buffered
`connectResult` channel delivers to the select. -/
def connackCheck (r0 r1 _r2 r3 : Nat) : Option ConnectError :=
  if r0 ≠ ConnAckType <<< 4 then some (ConnectError.notConnAck r0)
  else if r1 ≠ 2 then some (ConnectError.badLength r1)
  else if r3 ≠ ConnectionAccepted then some (ConnectError.refused r3)
  else none

/-- `Session.Connect` restricted to its state machine and CONNACK handling:
the state check under the write lock, then the validation of the 4-byte
response; only on success does the state become CONNECTED and are the
reader/dispatcher/writer tasks launched. -/
def Session.Connect (s : Session) (r0 r1 r2 r3 : Nat) :
    Except ConnectError Unit × Session :=
  if ¬(s.state = INITIAL ∨ s.state = DISCONNECTED) then (Except.error ConnectError.badState, s)
  else match connackCheck r0 r1 r2 r3 with
    | some e => (Except.error e, s)
    | none => (Except.ok (), { s with state := CONNECTED, tasksStarted := true })

/-- `Session.Disconnect` restricted to its state machine and the bytes it
queues: INITIAL is a no-op success writing nothing; any other non-CONNECTED
state is an error leaving everything unchanged; from CONNECTED it queues a
DISCONNECT message and ends DISCONNECTED. -/
def Session.Disconnect (s : Session) :
    Except String Unit × Session × List GenericMessage :=
  if s.state = INITIAL then (Except.ok (), s, [])
  else if s.state ≠ CONNECTED then
    (Except.error "Session can only be disconnected when it is in INITIAL, or CONNECTED state",
      s, [])
  else (Except.ok (), { s with state := DISCONNECTED }, [NewDisconnectMessage])

/-- `Session.processPublishAck`: type and 2-byte-body assertions (hard
failures), big-endian packet-id parse, the `XIgnorePubAck` early return, then
`releaseWaiting` and `unsetBit`. The returned list is what gets queued to the
writer (`toBroker`). -/
def Session.processPublishAck (s : Session) (msg : GenericMessage) :
    Option (Session × List GenericMessage) :=
  if msg.fixedHeader >>> 4 ≠ PublishAckType then none
  else match msg.body with
    | [b0, b1] =>
      let packetID := b0 <<< 8 ||| b1
      if s.XIgnorePubAck then some (s, [])
      else match s.flight.releaseWaiting packetID with
        | none => none
        | some f => some ({ s with flight := f.unsetBit packetID }, [])
    | _ => none

/-- `Session.processPublishReceived`: as `processPublishAck` but gated on the
same `XIgnorePubAck` flag; otherwise builds the PUBREL for the id, replaces
the waiting entry with it and queues that same message to the writer. -/
def Session.processPublishReceived (s : Session) (msg : GenericMessage) :
    Option (Session × List GenericMessage) :=
  if msg.fixedHeader >>> 4 ≠ PublishReceivedType then none
  else match msg.body with
    | [b0, b1] =>
      let packetID := b0 <<< 8 ||| b1
      if s.XIgnorePubAck then some (s, [])
      else
        let releaseMsg : GenericMessage :=
          { fixedHeader := PublishReleaseType <<< 4 ||| PublishReleaseReserved,
            body := Encode16BitIntTo packetID }
        match s.flight.replaceWaiting packetID releaseMsg with
        | none => none
        | some f => some ({ s with flight := f }, [releaseMsg])
    | _ => none

/-- `Session.processPublishComplete`: gated on `XIgnorePubComp`; otherwise
`releaseWaiting` then `unsetBit`, ending the QoS 2 exchange. -/
def Session.processPublishComplete (s : Session) (msg : GenericMessage) :
    Option (Session × List GenericMessage) :=
  if msg.fixedHeader >>> 4 ≠ PublishCompleteType then none
  else match msg.body with
    | [b0, b1] =>
      let packetID := b0 <<< 8 ||| b1
      if s.XIgnorePubComp then some (s, [])
      else match s.flight.releaseWaiting packetID with
        | none => none
        | some f => some ({ s with flight := f.unsetBit packetID }, [])
    | _ => none

/-! ## Theorems -/

/-- The ASCII bytes of the client name "MqttUnitTest" (12 bytes). -/
def mqttUnitTestName : List Nat := [77, 113, 116, 116, 85, 110, 105, 116, 84, 101, 115, 116]

/-- C1: `WriteDupTo` never sets the DUP bit. The guard compares
`m.fixedHeader<<4` — a byte shift, i.e. `(fixedHeader * 16) % 256`, always a
multiple of 16 — with `PublishType = 3`, so it is false for every fixed
header and `WriteDupTo` always writes exactly the bytes of `WriteTo`; in
particular a stored PUBLISH with fixed header `0x32` is retransmitted as
`0x32 …` with bit 3 still clear, contradicting the claimed DUP rewrite. -/
theorem writeDupTo_never_sets_dup_c1 :
    (∀ m : GenericMessage, m.WriteDupTo = m.WriteTo) ∧
    GenericMessage.WriteDupTo { fixedHeader := 0x32, body := [0, 1] } = [0x32, 2, 0, 1] ∧
    GenericMessage.WriteTo { fixedHeader := 0x32, body := [0, 1] } = [0x32, 2, 0, 1] := by
  have hall : ∀ m : GenericMessage, m.WriteDupTo = m.WriteTo := by
    intro m
    unfold GenericMessage.WriteDupTo PublishType
    rw [if_neg]
    rw [Nat.shiftLeft_eq]
    norm_num
    omega
  refine ⟨hall, ?_, ?_⟩
  · rw [hall]
    show (0x32 : Nat) :: EncodeVariableInt 2 ++ _ = _
    rw [EncodeVariableInt]
    norm_num
  · show (0x32 : Nat) :: EncodeVariableInt 2 ++ _ = _
    rw [EncodeVariableInt]
    norm_num

/-- C2: decoding the 4-byte encoding of any value in
[2,097,152, 268,435,455] fails: the multiplier check runs after
`multiplier *= 128`, so reading a fourth byte already trips the
"Malformed variable length" error even though no fifth byte is needed.
Round-trip and the claimed lengths do hold up to 3-byte encodings, shown
here at the boundary values. -/
theorem decodeVariableInt_rejects_four_bytes_c2 :
    EncodeVariableInt 2097152 = [128, 128, 128, 1] ∧
    DecodeVariableInt [128, 128, 128, 1] = Except.error "Malformed variable length" ∧
    (EncodeVariableInt 0).length = 1 ∧
    (EncodeVariableInt 127).length = 1 ∧
    (EncodeVariableInt 128).length = 2 ∧
    (EncodeVariableInt 16383).length = 2 ∧
    (EncodeVariableInt 16384).length = 3 ∧
    (EncodeVariableInt 2097151).length = 3 ∧
    DecodeVariableInt (EncodeVariableInt 2097151) = Except.ok 2097151 ∧
    EncodeVariableInt 268435455 = [255, 255, 255, 127] ∧
    DecodeVariableInt [255, 255, 255, 127] = Except.error "Malformed variable length" := by
  have e7 : EncodeVariableInt 2097151 = [255, 255, 127] := by
    simp [EncodeVariableInt]
  refine ⟨by simp [EncodeVariableInt], rfl, ?_, ?_, ?_, ?_, ?_, ?_, ?_,
    by simp [EncodeVariableInt], rfl⟩
  · simp [EncodeVariableInt]
  · simp [EncodeVariableInt]
  · simp [EncodeVariableInt]
  · simp [EncodeVariableInt]
  · simp [EncodeVariableInt]
  · rw [e7]
    rfl
  · rw [e7]
    rfl

/-- C3: the remaining-length value of a CONNECT equals the bytes written
after it only when the client name is non-empty: `remainingLength` skips the
client id when the name is empty although `WriteTo` always writes its 2-byte
length prefix. With default options (empty client name) the header declares
10 remaining bytes but 12 follow; with client name "MqttUnitTest" and
defaults the declared 24 matches the 24 bytes written and the framed message
is 26 bytes. -/
theorem connect_remainingLength_mismatch_c3 :
    10 + ConnectRequest.remainingLength { options := DefaultConnectOptions } = 10 ∧
    (ConnectRequest.variableHeaderAndPayload { options := DefaultConnectOptions }).length = 12 ∧
    ConnectRequest.WriteTo { options := DefaultConnectOptions } =
      [16, 10, 0, 4, 77, 81, 84, 84, 4, 2, 0, 10, 0, 0] ∧
    10 + ConnectRequest.remainingLength
      { options := { DefaultConnectOptions with ClientName := mqttUnitTestName } } = 24 ∧
    (ConnectRequest.variableHeaderAndPayload
      { options := { DefaultConnectOptions with ClientName := mqttUnitTestName } }).length = 24 ∧
    (ConnectRequest.WriteTo
      { options := { DefaultConnectOptions with ClientName := mqttUnitTestName } }).length = 26 := by
  refine ⟨?_, ?_, ?_, ?_, ?_, ?_⟩ <;>
    simp [ConnectRequest.WriteTo, ConnectRequest.remainingLength,
      ConnectRequest.variableHeaderAndPayload, ConnectRequest.connectBits,
      DefaultConnectOptions, mqttUnitTestName, EncodeStringTo, EncodeBytesTo,
      EncodeVariableInt, ConnectType, Reserved, CleanSessionFlag, WillFlag,
      WillRetainFlag, UserNameFlag, PasswordFlag, WillQoSOne, WillQoSTwo]
    <;> decide

/-- C4 counterexample: `releaseWaiting` does not remove the index entry.
After registering packet id 1 on a fresh tracker (node token 0) and calling
`releaseWaiting 1`, the waiting list is empty but `waitingIdx` still maps 1
to the (now unlinked) node, refuting the claim that the entry is removed
from both the list and the index. -/
theorem releaseWaiting_keeps_index_counterexample_c4 :
    Option.map (fun f => (f.waitingList, (f.waitingIdx 1).isSome))
      ((newInFlight.registerWaiting 1 { fixedHeader := 0, body := [7] }).releaseWaiting 1) =
      some ([], true) := rfl

/-- C4 (amended): for an id whose bit is set and that the index maps to node
`t`, `releaseWaiting` unlinks `t` from the waiting list and leaves every
other field — including the index entry, which goes stale, and the bit,
which stays set — unchanged; for an id whose bit is not set it fails hard. -/
theorem releaseWaiting_amended_c4 (f : inFlight) (id t : Nat)
    (hbit : f.getBit id = true) (hidx : f.waitingIdx id = some t) :
    f.releaseWaiting id = some { f with waitingList := f.waitingList.erase t } ∧
    ∀ g : inFlight, g.getBit id = false → g.releaseWaiting id = none := by
  constructor
  · unfold inFlight.releaseWaiting
    rw [hbit, hidx]
    simp
  · intro g hg
    unfold inFlight.releaseWaiting
    rw [hg]
    simp

/-- C4 witness: the amended statement evaluated on a fresh tracker holding
one registered packet. -/
theorem releaseWaiting_amended_witness_c4 :
    (newInFlight.registerWaiting 1 { fixedHeader := 0, body := [7] }).releaseWaiting 1 =
      some { (newInFlight.registerWaiting 1 { fixedHeader := 0, body := [7] }) with
        waitingList :=
          (newInFlight.registerWaiting 1 { fixedHeader := 0, body := [7] }).waitingList.erase 0 } :=
  (releaseWaiting_amended_c4 (newInFlight.registerWaiting 1 { fixedHeader := 0, body := [7] })
    1 0 rfl rfl).1

/-- C6: with a well-formed CONNACK (0x20, 0x02) whose return code is
non-zero, `Connect` from INITIAL returns the refused error carrying that
code, leaves the state INITIAL and does not start the reader/writer tasks
(the session is returned unchanged); with return code 0 it succeeds, moves
to CONNECTED and starts the tasks. -/
theorem connack_refused_c6 (s : Session) (sp rc : Nat)
    (hstate : s.state = INITIAL) (hrc : rc ≠ 0) :
    s.Connect 32 2 sp rc = (Except.error (ConnectError.refused rc), s) ∧
    s.Connect 32 2 sp 0 =
      (Except.ok (), { s with state := CONNECTED, tasksStarted := true }) := by
  unfold Session.Connect connackCheck
  simp [hstate, INITIAL, DISCONNECTED, ConnAckType, ConnectionAccepted, hrc]

/-- C6 witness: the refused scenario of the session tests — response bytes
{0x20, 0x02, 0x00, 0x05} on a session in INITIAL state. -/
theorem connack_refused_witness_c6 :
    Session.Connect
        { state := INITIAL, tasksStarted := false, XIgnorePubAck := false,
          XIgnorePubComp := false, flight := newInFlight } 32 2 0 5 =
      (Except.error (ConnectError.refused 5),
        { state := INITIAL, tasksStarted := false, XIgnorePubAck := false,
          XIgnorePubComp := false, flight := newInFlight }) ∧
    Session.Connect
        { state := INITIAL, tasksStarted := false, XIgnorePubAck := false,
          XIgnorePubComp := false, flight := newInFlight } 32 2 0 0 =
      (Except.ok (),
        { state := CONNECTED, tasksStarted := true, XIgnorePubAck := false,
          XIgnorePubComp := false, flight := newInFlight }) :=
  connack_refused_c6
    { state := INITIAL, tasksStarted := false, XIgnorePubAck := false,
      XIgnorePubComp := false, flight := newInFlight } 0 5 rfl (by decide)

/-- C7: `Connect` in CONNECTED or DISCONNECTING state fails with the
bad-state error leaving the session unchanged; `Disconnect` in INITIAL is a
no-op success that writes nothing; `Disconnect` in DISCONNECTING or
DISCONNECTED fails with the bad-state error, unchanged and writing
nothing. -/
theorem connect_disconnect_state_checks_c7 (s : Session) :
    ((s.state = CONNECTED ∨ s.state = DISCONNECTING) →
      ∀ r0 r1 r2 r3 : Nat,
        s.Connect r0 r1 r2 r3 = (Except.error ConnectError.badState, s)) ∧
    (s.state = INITIAL → s.Disconnect = (Except.ok (), s, [])) ∧
    ((s.state = DISCONNECTING ∨ s.state = DISCONNECTED) →
      s.Disconnect =
        (Except.error
          "Session can only be disconnected when it is in INITIAL, or CONNECTED state",
          s, [])) := by
  refine ⟨?_, ?_, ?_⟩
  · rintro (h | h) r0 r1 r2 r3 <;>
      simp [Session.Connect, h, INITIAL, CONNECTED, DISCONNECTING, DISCONNECTED]
  · intro h
    simp [Session.Disconnect, h, INITIAL]
  · rintro (h | h) <;>
      simp [Session.Disconnect, h, INITIAL, CONNECTED, DISCONNECTING, DISCONNECTED]

/-- C7 witness: the three branches evaluated at concrete sessions in
CONNECTED, INITIAL and DISCONNECTED states. -/
theorem connect_disconnect_state_checks_witness_c7 :
    Session.Connect
        { state := CONNECTED, tasksStarted := true, XIgnorePubAck := false,
          XIgnorePubComp := false, flight := newInFlight } 32 2 0 0 =
      (Except.error ConnectError.badState,
        { state := CONNECTED, tasksStarted := true, XIgnorePubAck := false,
          XIgnorePubComp := false, flight := newInFlight }) ∧
    Session.Disconnect
        { state := INITIAL, tasksStarted := false, XIgnorePubAck := false,
          XIgnorePubComp := false, flight := newInFlight } =
      (Except.ok (),
        { state := INITIAL, tasksStarted := false, XIgnorePubAck := false,
          XIgnorePubComp := false, flight := newInFlight }, []) ∧
    Session.Disconnect
        { state := DISCONNECTED, tasksStarted := false, XIgnorePubAck := false,
          XIgnorePubComp := false, flight := newInFlight } =
      (Except.error
        "Session can only be disconnected when it is in INITIAL, or CONNECTED state",
        { state := DISCONNECTED, tasksStarted := false, XIgnorePubAck := false,
          XIgnorePubComp := false, flight := newInFlight }, []) :=
  ⟨(connect_disconnect_state_checks_c7
      { state := CONNECTED, tasksStarted := true, XIgnorePubAck := false,
        XIgnorePubComp := false, flight := newInFlight }).1 (Or.inl rfl) 32 2 0 0,
   (connect_disconnect_state_checks_c7
      { state := INITIAL, tasksStarted := false, XIgnorePubAck := false,
        XIgnorePubComp := false, flight := newInFlight }).2.1 rfl,
   (connect_disconnect_state_checks_c7
      { state := DISCONNECTED, tasksStarted := false, XIgnorePubAck := false,
        XIgnorePubComp := false, flight := newInFlight }).2.2 (Or.inr rfl)⟩

/-- C9: with `XIgnorePubAck` set, inbound PUBACK and PUBREC processing both
return the session unchanged (no bit cleared, no entry removed or replaced)
and enqueue nothing — the one flag gates both handlers; with
`XIgnorePubComp` set, PUBCOMP processing likewise changes nothing. -/
theorem ignore_flags_drop_acks_c9 (s : Session) (h4 h5 h7 b0 b1 : Nat)
    (ht4 : h4 >>> 4 = PublishAckType) (ht5 : h5 >>> 4 = PublishReceivedType)
    (ht7 : h7 >>> 4 = PublishCompleteType) :
    (s.XIgnorePubAck = true →
      s.processPublishAck { fixedHeader := h4, body := [b0, b1] } = some (s, []) ∧
      s.processPublishReceived { fixedHeader := h5, body := [b0, b1] } = some (s, [])) ∧
    (s.XIgnorePubComp = true →
      s.processPublishComplete { fixedHeader := h7, body := [b0, b1] } = some (s, [])) := by
  constructor
  · intro hig
    constructor
    · simp [Session.processPublishAck, ht4, hig]
    · simp [Session.processPublishReceived, ht5, hig]
  · intro hig
    simp [Session.processPublishComplete, ht7, hig]

/-- C9 witness: both flags set, with the wire-typical headers 0x40, 0x50,
0x70 and packet id 1. -/
theorem ignore_flags_drop_acks_witness_c9 :
    (Session.processPublishAck
        { state := CONNECTED, tasksStarted := true, XIgnorePubAck := true,
          XIgnorePubComp := true, flight := newInFlight }
        { fixedHeader := 0x40, body := [0, 1] } =
      some ({ state := CONNECTED, tasksStarted := true, XIgnorePubAck := true,
              XIgnorePubComp := true, flight := newInFlight }, []) ∧
     Session.processPublishReceived
        { state := CONNECTED, tasksStarted := true, XIgnorePubAck := true,
          XIgnorePubComp := true, flight := newInFlight }
        { fixedHeader := 0x50, body := [0, 1] } =
      some ({ state := CONNECTED, tasksStarted := true, XIgnorePubAck := true,
              XIgnorePubComp := true, flight := newInFlight }, [])) ∧
    Session.processPublishComplete
        { state := CONNECTED, tasksStarted := true, XIgnorePubAck := true,
          XIgnorePubComp := true, flight := newInFlight }
        { fixedHeader := 0x70, body := [0, 1] } =
      some ({ state := CONNECTED, tasksStarted := true, XIgnorePubAck := true,
              XIgnorePubComp := true, flight := newInFlight }, []) :=
  ⟨(ignore_flags_drop_acks_c9
      { state := CONNECTED, tasksStarted := true, XIgnorePubAck := true,
        XIgnorePubComp := true, flight := newInFlight }
      0x40 0x50 0x70 0 1 rfl rfl rfl).1 rfl,
   (ignore_flags_drop_acks_c9
      { state := CONNECTED, tasksStarted := true, XIgnorePubAck := true,
        XIgnorePubComp := true, flight := newInFlight }
      0x40 0x50 0x70 0 1 rfl rfl rfl).2 rfl⟩

/-- C8: processing a PUBREC for packet id `b0<<8|b1` with the ignore flag
clear, the bit set and an indexed waiting node `t` holding that id: the node
keeps its place on the waiting list (only its stored message changes to the
PUBREL), every other node, the bitmap (bit p included) and the index are
unchanged, and that same PUBREL — fixed header
`PublishReleaseType<<4|PublishReleaseReserved = 0x62`, body the 2-byte
big-endian id — is enqueued to the writer. -/
theorem pubrec_replaces_entry_with_pubrel_c8 (s : Session) (h b0 b1 t oldID : Nat)
    (oldMsg : GenericMessage)
    (hflag : s.XIgnorePubAck = false)
    (htype : h >>> 4 = PublishReceivedType)
    (hbit : s.flight.getBit (b0 <<< 8 ||| b1) = true)
    (hidx : s.flight.waitingIdx (b0 <<< 8 ||| b1) = some t)
    (hheap : s.flight.heap t = some (oldID, oldMsg)) :
    s.processPublishReceived { fixedHeader := h, body := [b0, b1] } =
      some ({ s with flight := { s.flight with
          heap := fun t' => if t' = t then
              some (oldID,
                { fixedHeader := PublishReleaseType <<< 4 ||| PublishReleaseReserved,
                  body := Encode16BitIntTo (b0 <<< 8 ||| b1) })
            else s.flight.heap t' } },
        [{ fixedHeader := PublishReleaseType <<< 4 ||| PublishReleaseReserved,
           body := Encode16BitIntTo (b0 <<< 8 ||| b1) }]) ∧
    PublishReleaseType <<< 4 ||| PublishReleaseReserved = 0x62 := by
  constructor
  · simp only [Session.processPublishReceived, htype, inFlight.replaceWaiting, hbit,
      hidx, hheap, hflag]
    simp
  · decide

/-- C8 witness: a session holding one registered QoS 2 PUBLISH under packet
id 1, processing the PUBREC {0x50, 0x02, 0x00, 0x01}. -/
theorem pubrec_replaces_entry_with_pubrel_witness_c8 :
    Session.processPublishReceived
        { state := CONNECTED, tasksStarted := true, XIgnorePubAck := false,
          XIgnorePubComp := false,
          flight := newInFlight.registerWaiting 1 { fixedHeader := 0x34, body := [0, 1, 116, 0, 1] } }
        { fixedHeader := 0x50, body := [0, 1] } =
      some ({ state := CONNECTED, tasksStarted := true, XIgnorePubAck := false,
              XIgnorePubComp := false,
              flight := { (newInFlight.registerWaiting 1
                  { fixedHeader := 0x34, body := [0, 1, 116, 0, 1] }) with
                heap := fun t' => if t' = 0 then
                    some (1,
                      { fixedHeader := PublishReleaseType <<< 4 ||| PublishReleaseReserved,
                        body := Encode16BitIntTo (0 <<< 8 ||| 1) })
                  else (newInFlight.registerWaiting 1
                    { fixedHeader := 0x34, body := [0, 1, 116, 0, 1] }).heap t' } },
        [{ fixedHeader := PublishReleaseType <<< 4 ||| PublishReleaseReserved,
           body := Encode16BitIntTo (0 <<< 8 ||| 1) }]) :=
  (pubrec_replaces_entry_with_pubrel_c8
    { state := CONNECTED, tasksStarted := true, XIgnorePubAck := false,
      XIgnorePubComp := false,
      flight := newInFlight.registerWaiting 1 { fixedHeader := 0x34, body := [0, 1, 116, 0, 1] } }
    0x50 0 1 0 1 { fixedHeader := 0x34, body := [0, 1, 116, 0, 1] }
    rfl rfl rfl rfl rfl).1


/-! ### Packet-id allocator lemmas -/

/-- The tracker state after `k` successful allocations from `newInFlight`:
ids 1..k are marked in flight and the cursor sits at `k`. -/
def presetBits (k : Nat) : inFlight :=
  { bits := fun i => decide (1 ≤ i ∧ i ≤ k), nextValue := k, waitingList := [],
    heap := fun _ => none, waitingIdx := fun _ => none, freshNode := 0 }

/-- A tracker whose cursor is `c` with every id of [1, 65535] except `c`
marked in flight. -/
def allBut (c : Nat) : inFlight :=
  { bits := fun i => decide (1 ≤ i ∧ i ≤ 65535 ∧ i ≠ c), nextValue := c,
    waitingList := [], heap := fun _ => none, waitingIdx := fun _ => none,
    freshNode := 0 }

/-- Forward wrap-around distance from `p` to `c` along `cappedIncrement`
steps over [1, 65535]. -/
def wrapDist (p c : Nat) : Nat :=
  if p ≤ c then c - p else c + 65535 - p

theorem cappedIncrement_mem (x : Nat) :
    1 ≤ cappedIncrement x ∧ cappedIncrement x ≤ 65535 := by
  unfold cappedIncrement
  split <;> omega

theorem nextPacketIDScan_exit (bits : Nat → Bool) (dt : Nat) :
    ∀ fuel start r, 1 ≤ start → start ≤ 65535 →
      nextPacketIDScan bits dt start fuel = some r →
      (1 ≤ r ∧ r ≤ 65535) ∧ (bits r = false ∨ r = dt) := by
  intro fuel
  induction fuel with
  | zero => intro start r _ _ hscan; simp [nextPacketIDScan] at hscan
  | succ n ih =>
    intro start r h1 h2 hscan
    unfold nextPacketIDScan at hscan
    by_cases hc : bits start = true ∧ start ≠ dt
    · rw [if_pos hc] at hscan
      exact ih (cappedIncrement start) r (cappedIncrement_mem start).1
        (cappedIncrement_mem start).2 hscan
    · rw [if_neg hc] at hscan
      cases hscan
      refine ⟨⟨h1, h2⟩, ?_⟩
      by_cases hb : bits start = true
      · exact Or.inr (by by_contra hdt; exact hc ⟨hb, hdt⟩)
      · exact Or.inl (by simpa using hb)

/-- Scanning the `allBut c` bitmap from any position of [1, 65535] reaches
`c` (the single free id, which is also the cursor) within `wrapDist`
steps. -/
theorem nextPacketIDScan_allBut (c : Nat) (hc1 : 1 ≤ c) (hc2 : c ≤ 65535) :
    ∀ n p fuel, 1 ≤ p → p ≤ 65535 → wrapDist p c = n → n < fuel →
      nextPacketIDScan (allBut c).bits c p fuel = some c := by
  intro n
  induction n with
  | zero =>
    intro p fuel h1 h2 hd hf
    have hpc : p = c := by
      unfold wrapDist at hd
      by_cases hle : p ≤ c
      · rw [if_pos hle] at hd; omega
      · rw [if_neg hle] at hd; omega
    subst hpc
    obtain ⟨f', rfl⟩ : ∃ f', fuel = f' + 1 := ⟨fuel - 1, by omega⟩
    unfold nextPacketIDScan
    rw [if_neg (by simp)]
  | succ n ih =>
    intro p fuel h1 h2 hd hf
    have hpc : p ≠ c := by
      intro hpc
      subst hpc
      unfold wrapDist at hd
      rw [if_pos (le_refl p)] at hd
      omega
    obtain ⟨f', rfl⟩ : ∃ f', fuel = f' + 1 := ⟨fuel - 1, by omega⟩
    unfold nextPacketIDScan
    rw [if_pos ⟨by simp [allBut]; omega, hpc⟩]
    refine ih (cappedIncrement p) f' (cappedIncrement_mem p).1
      (cappedIncrement_mem p).2 ?_ (by omega)
    by_cases h65 : p + 1 > 0xFFFF
    · have hcap : cappedIncrement p = 1 := by unfold cappedIncrement; rw [if_pos h65]
      rw [hcap]
      unfold wrapDist at hd ⊢
      rw [if_neg (by omega)] at hd
      rw [if_pos hc1]
      omega
    · have hcap : cappedIncrement p = p + 1 := by unfold cappedIncrement; rw [if_neg h65]
      rw [hcap]
      unfold wrapDist at hd ⊢
      by_cases hle : p ≤ c
      · rw [if_pos hle] at hd
        rw [if_pos (by omega)]
        omega
      · rw [if_neg hle] at hd
        rw [if_neg (by omega)]
        omega

theorem presetBits_zero : presetBits 0 = newInFlight := by
  unfold presetBits newInFlight
  congr 1
  funext i
  exact decide_eq_false (by omega)

/-- One allocation step on the fresh-tracker family: from `presetBits k`
with `k < 65535` the next call immediately finds `k + 1`. -/
theorem nextPacketID_fresh_step (k : Nat) (hk : k < 65535) :
    (presetBits k).nextPacketIDRun 1 = some (k + 1, presetBits (k + 1)) := by
  have hnv : (presetBits k).nextValue = k := rfl
  have hcap : cappedIncrement k = k + 1 := by
    unfold cappedIncrement
    rw [if_neg (by omega)]
  have hscan : nextPacketIDScan (presetBits k).bits k (k + 1) 1 = some (k + 1) := by
    unfold nextPacketIDScan
    rw [if_neg]
    intro hcond
    have hb' : (1 ≤ k + 1 ∧ k + 1 ≤ k) := of_decide_eq_true hcond.1
    omega
  have hstate : (⟨fun i => if i = k + 1 then true else (presetBits k).bits i, k + 1,
      (presetBits k).waitingList, (presetBits k).heap, (presetBits k).waitingIdx,
      (presetBits k).freshNode⟩ : inFlight) = presetBits (k + 1) := by
    unfold presetBits
    congr 1
    funext i
    by_cases hi : i = k + 1
    · subst hi
      rw [if_pos rfl, eq_comm]
      exact decide_eq_true_iff.mpr (by omega)
    · rw [if_neg hi]
      show decide (1 ≤ i ∧ i ≤ k) = decide (1 ≤ i ∧ i ≤ k + 1)
      exact decide_eq_decide.mpr (by omega)
  have hnext : (presetBits k).nextPacketID 1 =
      some (Except.ok (k + 1, presetBits (k + 1))) := by
    unfold inFlight.nextPacketID
    rw [hnv, hcap, hscan]
    simp only [Option.map_some']
    rw [if_neg (by omega)]
    rw [hstate]
  unfold inFlight.nextPacketIDRun
  rw [hnext]
  rfl

/-- The successful outcome of `nextPacketID` seen through
`nextPacketIDRun`. -/
theorem nextPacketIDRun_ok (f : inFlight) (fuel id : Nat) (f' : inFlight)
    (hrun : f.nextPacketIDRun fuel = some (id, f')) :
    ∃ r, nextPacketIDScan f.bits f.nextValue (cappedIncrement f.nextValue) fuel = some r ∧
      r ≠ f.nextValue ∧ id = r ∧
      f' = { f with nextValue := r, bits := fun i => if i = r then true else f.bits i } := by
  unfold inFlight.nextPacketIDRun inFlight.nextPacketID at hrun
  rcases hscan : nextPacketIDScan f.bits f.nextValue (cappedIncrement f.nextValue) fuel with
    _ | r
  · rw [hscan] at hrun
    simp at hrun
  · rw [hscan] at hrun
    simp only [Option.map_some'] at hrun
    by_cases hdt : r = f.nextValue
    · rw [if_pos hdt] at hrun
      simp at hrun
    · rw [if_neg hdt] at hrun
      simp only [Option.some_bind, Option.some.injEq, Prod.mk.injEq] at hrun
      exact ⟨r, rfl, hdt, hrun.1.symm, hrun.2.symm⟩

/-- C5: a successful `nextPacketID` always hands out an id of [1, 65535]
(so never 0) whose bit was clear before the call and is set after it, with
the cursor moved onto it; starting from a fresh tracker the successive calls
return 1, 2, …, 65535 in order (`presetBits k` is the state after `k` calls,
and `presetBits 0 = newInFlight`); after those 65535 calls and a
`clearAllBits` the next call returns 1; with bits {1, 2, 4, 6, 7} preset the
next calls return 3, 5, 8; and `cappedIncrement 0xFFFF = 1`. -/
theorem nextPacketID_spec_c5 :
    (∀ (f : inFlight) (fuel id : Nat) (f' : inFlight),
        f.nextPacketIDRun fuel = some (id, f') →
        1 ≤ id ∧ id ≤ 65535 ∧ f.bits id = false ∧ f'.bits id = true ∧ f'.nextValue = id) ∧
    presetBits 0 = newInFlight ∧
    (∀ k, k < 65535 → (presetBits k).nextPacketIDRun 1 = some (k + 1, presetBits (k + 1))) ∧
    Option.map Prod.fst ((presetBits 65535).clearAllBits.nextPacketIDRun 1) = some 1 ∧
    inFlight.nextIDs (((((newInFlight.setBit 1).setBit 2).setBit 4).setBit 6).setBit 7) 16 3 =
      [3, 5, 8] ∧
    cappedIncrement 0xFFFF = 1 := by
  refine ⟨?_, presetBits_zero, nextPacketID_fresh_step, by decide, by decide, by decide⟩
  intro f fuel id f' hrun
  obtain ⟨r, hscan, hdt, hid, hf'⟩ := nextPacketIDRun_ok f fuel id f' hrun
  subst hid
  have hexit := nextPacketIDScan_exit f.bits f.nextValue fuel
    (cappedIncrement f.nextValue) id (cappedIncrement_mem _).1 (cappedIncrement_mem _).2
    hscan
  have hbits : f.bits id = false := by
    rcases hexit.2 with h | h
    · exact h
    · exact absurd h hdt
  subst hf'
  exact ⟨hexit.1.1, hexit.1.2, hbits, by simp, rfl⟩

/-- C5 witness: the first fresh-tracker call, instantiated at `k = 0`, also
discharging the general part's hypothesis at that concrete call. -/
theorem nextPacketID_spec_witness_c5 :
    (1 ≤ 1 ∧ 1 ≤ 65535 ∧ (presetBits 0).bits 1 = false ∧ (presetBits 1).bits 1 = true ∧
      (presetBits 1).nextValue = 1) ∧
    (presetBits 0).nextPacketIDRun 1 = some (0 + 1, presetBits (0 + 1)) :=
  ⟨nextPacketID_spec_c5.1 (presetBits 0) 1 1 (presetBits 1)
      (nextPacketID_spec_c5.2.2.1 0 (by decide)),
   nextPacketID_spec_c5.2.2.1 0 (by decide)⟩

/-- C10: `nextPacketID` never returns the cursor value it started from; the
"No free packet IDs" hard failure happens exactly when the scan comes back
to the cursor; and in a state whose cursor `c` ∈ [1, 65535] has every other
id of [1, 65535] allocated, the call fails hard even though the cursor's own
id `c` is free. -/
theorem nextPacketID_exhaustion_c10 :
    (∀ (f : inFlight) (fuel id : Nat) (f' : inFlight),
        f.nextPacketIDRun fuel = some (id, f') → id ≠ f.nextValue) ∧
    (∀ (f : inFlight) (fuel : Nat),
        f.nextPacketID fuel = some (Except.error "No free packet IDs") ↔
        nextPacketIDScan f.bits f.nextValue (cappedIncrement f.nextValue) fuel =
          some f.nextValue) ∧
    (∀ c, 1 ≤ c → c ≤ 65535 →
        (allBut c).bits c = false ∧
        (allBut c).nextPacketID 65536 = some (Except.error "No free packet IDs")) := by
  refine ⟨?_, ?_, ?_⟩
  · intro f fuel id f' hrun
    obtain ⟨r, _, hdt, hid, _⟩ := nextPacketIDRun_ok f fuel id f' hrun
    subst hid
    exact hdt
  · intro f fuel
    unfold inFlight.nextPacketID
    rcases hscan : nextPacketIDScan f.bits f.nextValue (cappedIncrement f.nextValue) fuel with
      _ | r
    · simp
    · simp only [Option.map_some']
      by_cases hdt : r = f.nextValue
      · subst hdt
        simp
      · rw [if_neg hdt]
        simp [hdt]
  · intro c hc1 hc2
    refine ⟨by simp [allBut], ?_⟩
    have hnv : (allBut c).nextValue = c := rfl
    have hdist : wrapDist (cappedIncrement c) c = 65534 := by
      by_cases h65 : c + 1 > 0xFFFF
      · have hcap : cappedIncrement c = 1 := by unfold cappedIncrement; rw [if_pos h65]
        rw [hcap]
        unfold wrapDist
        rw [if_pos hc1]
        omega
      · have hcap : cappedIncrement c = c + 1 := by unfold cappedIncrement; rw [if_neg h65]
        rw [hcap]
        unfold wrapDist
        rw [if_neg (by omega)]
        omega
    have hscan := nextPacketIDScan_allBut c hc1 hc2 65534 (cappedIncrement c) 65536
      (cappedIncrement_mem _).1 (cappedIncrement_mem _).2 hdist (by omega)
    unfold inFlight.nextPacketID
    rw [hnv, hscan]
    simp

/-- C10 witness: the exhaustion scenario at cursor 1 — every id of
[2, 65535] allocated, id 1 free, and the call still fails hard. -/
theorem nextPacketID_exhaustion_witness_c10 :
    (allBut 1).bits 1 = false ∧
    (allBut 1).nextPacketID 65536 = some (Except.error "No free packet IDs") :=
  nextPacketID_exhaustion_c10.2.2 1 (by decide) (by decide)

end Mezquit
